import Mathlib

/-!
Verification of the teddycloud-cover-printer layout & fit engine.

This file shallowly embeds the algorithmic core of the repository
(`src/src/app/app.component.ts` and the storage service) in Lean 4.
All JavaScript numbers are modelled as exact rationals (`ℚ`); `Math.floor`
is `Int.floor`.  Stateful component methods become explicit state-passing
functions.  The error-message strings produced by `calculateGrid` are
modelled structurally: an error kind constructor carrying exactly the
numeric quantities the source interpolates into the message.
-/

namespace CoverPrinter

/-- Paper size, in centimetres (source: `paperSizes` entries). -/
structure PaperSize where
  width : ℚ
  height : ℚ
deriving DecidableEq, Repr

/-- Placeholder shape (source: `placeholderShape: 'rectangular' | 'round'`). -/
inductive PlaceholderShape
  | rectangular
  | round
deriving DecidableEq, Repr

/-- The layout-relevant component inputs of `calculateGrid`:
paper size (cm), picture width/height, margins and spacing (mm), shape. -/
structure LayoutConfig where
  paperSize : PaperSize
  pictureWidth : ℚ
  pictureHeight : ℚ
  margin : ℚ
  spacing : ℚ
  shape : PlaceholderShape
deriving DecidableEq, Repr

/-- One grid cell (source: the object produced in the `placeholders` map,
keeping only the layout fields `id`, row, column, `left`, `top`). -/
structure CellPosition where
  id : ℕ
  row : ℕ
  column : ℕ
  left : ℚ
  top : ℚ
deriving DecidableEq, Repr

/-- Structural model of the error messages of `calculateGrid`: the kind of
failure together with the numbers the source puts into the message text. -/
inductive LayoutErrorKind
  | widthExceeds (required available : ℚ)
  | heightExceeds (required available : ℚ)
  | noSpace (pictureW pictureH availableW availableH : ℚ)
deriving DecidableEq, Repr

/-- The component fields written by `calculateGrid`:
`hasLayoutError`, `errorMessage` (modelled as `errorKind`), `rows`,
`columns`, `offsetX`, `offsetY`, `placeholders`. -/
structure GridState where
  hasLayoutError : Bool
  errorKind : Option LayoutErrorKind
  rows : ℤ
  columns : ℤ
  offsetX : ℚ
  offsetY : ℚ
  placeholders : List CellPosition
deriving DecidableEq, Repr

/-- Initial values of the grid fields (source: field initialisers
`rows = 0`, `columns = 0`, `placeholders = []`, `offsetX = 0`, …). -/
def initialGridState : GridState :=
  { hasLayoutError := false, errorKind := none, rows := 0, columns := 0,
    offsetX := 0, offsetY := 0, placeholders := [] }

/-- Source: `const paperWidthMm = this.selectedPaperSize.width * 10`. -/
def paperWidthMm (c : LayoutConfig) : ℚ := c.paperSize.width * 10

/-- Source: `const paperHeightMm = this.selectedPaperSize.height * 10`. -/
def paperHeightMm (c : LayoutConfig) : ℚ := c.paperSize.height * 10

/-- Source: `const pictureWidthMm = this.pictureWidth`. -/
def pictureWidthMm (c : LayoutConfig) : ℚ := c.pictureWidth

/-- Source: `const pictureHeightMm = shape === 'round' ? pictureWidth : pictureHeight`. -/
def pictureHeightMm (c : LayoutConfig) : ℚ :=
  if c.shape = .round then c.pictureWidth else c.pictureHeight

/-- Source: `const minRequiredWidth = pictureWidthMm + (2 * marginMm)`. -/
def minRequiredWidth (c : LayoutConfig) : ℚ := pictureWidthMm c + 2 * c.margin

/-- Source: `const minRequiredHeight = pictureHeightMm + (2 * marginMm)`. -/
def minRequiredHeight (c : LayoutConfig) : ℚ := pictureHeightMm c + 2 * c.margin

/-- Source: `const availableWidth = paperWidthMm - (2 * marginMm)`. -/
def availableWidth (c : LayoutConfig) : ℚ := paperWidthMm c - 2 * c.margin

/-- Source: `const availableHeight = paperHeightMm - (2 * marginMm)`. -/
def availableHeight (c : LayoutConfig) : ℚ := paperHeightMm c - 2 * c.margin

/-- Source: `this.columns = Math.floor((availableWidth + spacingMm) / (pictureWidthMm + spacingMm))`. -/
def gridColumns (c : LayoutConfig) : ℤ :=
  ⌊(availableWidth c + c.spacing) / (pictureWidthMm c + c.spacing)⌋

/-- Source: `this.rows = Math.floor((availableHeight + spacingMm) / (pictureHeightMm + spacingMm))`. -/
def gridRows (c : LayoutConfig) : ℤ :=
  ⌊(availableHeight c + c.spacing) / (pictureHeightMm c + c.spacing)⌋

/-- Source: `const totalGridWidth = (columns * pictureWidthMm) + ((columns - 1) * spacingMm)`. -/
def totalGridWidth (c : LayoutConfig) : ℚ :=
  gridColumns c * pictureWidthMm c + (gridColumns c - 1) * c.spacing

/-- Source: `const totalGridHeight = (rows * pictureHeightMm) + ((rows - 1) * spacingMm)`. -/
def totalGridHeight (c : LayoutConfig) : ℚ :=
  gridRows c * pictureHeightMm c + (gridRows c - 1) * c.spacing

/-- Source: `this.offsetX = marginMm + (availableWidth - totalGridWidth) / 2`. -/
def gridOffsetX (c : LayoutConfig) : ℚ :=
  c.margin + (availableWidth c - totalGridWidth c) / 2

/-- Source: `this.offsetY = marginMm + (availableHeight - totalGridHeight) / 2`. -/
def gridOffsetY (c : LayoutConfig) : ℚ :=
  c.margin + (availableHeight c - totalGridHeight c) / 2

/-- The cell built for `index` in the `placeholders` map:
`row = Math.floor(index / columns)`, `col = index % columns`,
`left = offsetX + col * (pictureWidthMm + spacingMm)`,
`top = offsetY + row * (pictureHeightMm + spacingMm)`. -/
def gridCell (c : LayoutConfig) (index : ℕ) : CellPosition :=
  let row := index / (gridColumns c).toNat
  let col := index % (gridColumns c).toNat
  { id := index, row := row, column := col,
    left := gridOffsetX c + col * (pictureWidthMm c + c.spacing),
    top := gridOffsetY c + row * (pictureHeightMm c + c.spacing) }

/-- Source: `Array(totalPlaceholders).fill(null).map((_, index) => …)` with
`totalPlaceholders = rows * columns`. -/
def gridPlaceholders (c : LayoutConfig) : List CellPosition :=
  (List.range (gridRows c * gridColumns c).toNat).map (gridCell c)

/-- Shallow embedding of `calculateGrid()` as a state update on the grid
fields of the component.  Error branches return early after setting
`hasLayoutError`, the message, `rows = 0`, `columns = 0`, `placeholders = []`
(and, like the source, leave `offsetX`/`offsetY` untouched). -/
def calculateGrid (c : LayoutConfig) (s : GridState) : GridState :=
  let s0 : GridState := { s with hasLayoutError := false, errorKind := none }
  if minRequiredWidth c > paperWidthMm c then
    { s0 with hasLayoutError := true,
              errorKind := some (.widthExceeds (minRequiredWidth c) (paperWidthMm c)),
              rows := 0, columns := 0, placeholders := [] }
  else if minRequiredHeight c > paperHeightMm c then
    { s0 with hasLayoutError := true,
              errorKind := some (.heightExceeds (minRequiredHeight c) (paperHeightMm c)),
              rows := 0, columns := 0, placeholders := [] }
  else if gridColumns c ≤ 0 ∨ gridRows c ≤ 0 then
    { s0 with hasLayoutError := true,
              errorKind := some (.noSpace (pictureWidthMm c) (pictureHeightMm c)
                                          (availableWidth c) (availableHeight c)),
              rows := 0, columns := 0, placeholders := [] }
  else
    { s0 with rows := gridRows c, columns := gridColumns c,
              offsetX := gridOffsetX c, offsetY := gridOffsetY c,
              placeholders := gridPlaceholders c }

/-- Two cells (of common width `pw` and height `eh`) overlap when the
interiors of their rectangles intersect. -/
def cellsOverlap (pw eh : ℚ) (a b : CellPosition) : Prop :=
  a.left < b.left + pw ∧ b.left < a.left + pw ∧
  a.top < b.top + eh ∧ b.top < a.top + eh

instance (pw eh : ℚ) (a b : CellPosition) : Decidable (cellsOverlap pw eh a b) := by
  unfold cellsOverlap; infer_instance

/-- A cell (of width `pw`, height `eh`) lies within the margin-reduced
paper area `[margin, paperSize − margin]` on both axes. -/
def cellInBounds (c : LayoutConfig) (cell : CellPosition) : Prop :=
  c.margin ≤ cell.left ∧ cell.left + pictureWidthMm c ≤ paperWidthMm c - c.margin ∧
  c.margin ≤ cell.top ∧ cell.top + pictureHeightMm c ≤ paperHeightMm c - c.margin

instance (c : LayoutConfig) (cell : CellPosition) : Decidable (cellInBounds c cell) := by
  unfold cellInBounds; infer_instance

/-- Source: `const mmToCssPx = 96 / 25.4` (CSS pixels per millimetre at 96 DPI). -/
def mmToCssPx : ℚ := 96 / 25.4

/-- The component fields read by the image-fit/pan/zoom methods:
picture dimensions (mm), placeholder shape, whitespace setting. -/
structure FitConfig where
  pictureWidth : ℚ
  pictureHeight : ℚ
  placeholderShape : PlaceholderShape
  allowWhitespace : Bool
deriving DecidableEq, Repr

/-- Per-placeholder image state (source: `PlaceholderState`, keeping the
fields the fit/zoom/clamp math reads; `imageData` is modelled as presence). -/
structure ImageState where
  imageData : Bool
  offsetX : ℚ
  offsetY : ℚ
  scale : ℚ
  imageWidth : ℚ
  imageHeight : ℚ
deriving DecidableEq, Repr

/-- Source: `const placeholderWidthPx = this.pictureWidth * mmToCssPx`
(identical in `constrainOffset`, `calculateMinimumScale` and
`fitImageToPlaceholder`). -/
def placeholderWidthPx (cfg : FitConfig) : ℚ := cfg.pictureWidth * mmToCssPx

/-- Source: `const placeholderHeightPx = this.pictureHeight * mmToCssPx` —
the height used by `constrainOffset`, which does NOT special-case the
round shape. -/
def placeholderHeightPx (cfg : FitConfig) : ℚ := cfg.pictureHeight * mmToCssPx

/-- Source: `const placeholderHeightPx = (shape === 'round' ? pictureWidth :
pictureHeight) * mmToCssPx` — the round-aware rendered height used by
`calculateMinimumScale` and `fitImageToPlaceholder`. -/
def effectivePlaceholderHeightPx (cfg : FitConfig) : ℚ :=
  (if cfg.placeholderShape = .round then cfg.pictureWidth else cfg.pictureHeight) * mmToCssPx

/-- Axis selector for `constrainOffset`. -/
inductive Axis
  | x
  | y
deriving DecidableEq, Repr

/-- Shallow embedding of `constrainOffset(offset, placeholder, axis)`.
`Math.max(minOffset, Math.min(maxOffset, offset))` with `maxOffset = 0`
and `minOffset = placeholderSizePx - scaledImageSize`; smaller-than-
placeholder images are centred.  Note the y branch uses
`placeholderHeightPx` (not round-aware), exactly as the source. -/
def constrainOffset (cfg : FitConfig) (offset : ℚ) (p : ImageState) (axis : Axis) : ℚ :=
  let scaledImageWidth := p.imageWidth * p.scale
  let scaledImageHeight := p.imageHeight * p.scale
  match axis with
  | .x =>
    if scaledImageWidth ≤ placeholderWidthPx cfg then
      (placeholderWidthPx cfg - scaledImageWidth) / 2
    else
      max (placeholderWidthPx cfg - scaledImageWidth) (min 0 offset)
  | .y =>
    if scaledImageHeight ≤ placeholderHeightPx cfg then
      (placeholderHeightPx cfg - scaledImageHeight) / 2
    else
      max (placeholderHeightPx cfg - scaledImageHeight) (min 0 offset)

/-- Shallow embedding of `calculateMinimumScale(placeholder)`:
`max(placeholderWidthPx / imageWidth, placeholderHeightPx / imageHeight)`
with the round-aware placeholder height. -/
def calculateMinimumScale (cfg : FitConfig) (p : ImageState) : ℚ :=
  max (placeholderWidthPx cfg / p.imageWidth)
      (effectivePlaceholderHeightPx cfg / p.imageHeight)

/-- Shallow embedding of the zoom logic of `onWheel(event, placeholder)`.
`mouseX`/`mouseY` are the already-extracted cursor coordinates relative to
the placeholder; `deltaY` is the wheel delta.  Returns the updated image
state; without an image the handler returns early, unchanged. -/
def onWheel (cfg : FitConfig) (p : ImageState) (mouseX mouseY deltaY : ℚ) : ImageState :=
  if p.imageData = false then p
  else
    let zoomFactor : ℚ := if deltaY < 0 then 1.1 else 1 / 1.1
    let oldScale := p.scale
    let newScale0 := oldScale * zoomFactor
    let newScale :=
      if cfg.allowWhitespace then newScale0
      else max (calculateMinimumScale cfg p) newScale0
    let imageX := (mouseX - p.offsetX) / oldScale
    let imageY := (mouseY - p.offsetY) / oldScale
    let newOffsetX0 := mouseX - imageX * newScale
    let newOffsetY0 := mouseY - imageY * newScale
    let p1 : ImageState := { p with scale := newScale }
    let newOffsetX :=
      if cfg.allowWhitespace then newOffsetX0
      else constrainOffset cfg newOffsetX0 p1 .x
    let newOffsetY :=
      if cfg.allowWhitespace then newOffsetY0
      else constrainOffset cfg newOffsetY0 p1 .y
    { p1 with offsetX := newOffsetX, offsetY := newOffsetY }

/-- The scaled image fully covers the rendered placeholder (width
`placeholderWidthPx`, round-aware height `effectivePlaceholderHeightPx`):
no visible gap on any side. -/
def coversPlaceholder (cfg : FitConfig) (p : ImageState) : Prop :=
  p.offsetX ≤ 0 ∧ placeholderWidthPx cfg ≤ p.offsetX + p.imageWidth * p.scale ∧
  p.offsetY ≤ 0 ∧ effectivePlaceholderHeightPx cfg ≤ p.offsetY + p.imageHeight * p.scale

instance (cfg : FitConfig) (p : ImageState) : Decidable (coversPlaceholder cfg p) := by
  unfold coversPlaceholder; infer_instance

/-- The persisted settings record (source: `AppSettings` in
`storage.service`). -/
structure AppSettings where
  selectedPaperSizeIndex : ℤ
  pictureWidth : ℚ
  pictureHeight : ℚ
  margins : ℚ
  spacing : ℚ
  allowWhitespace : Bool
  showCropMarks : Bool
  isDarkMode : Bool
  placeholderShape : PlaceholderShape
deriving DecidableEq, Repr

/-- Source: `DEFAULT_SETTINGS` of the storage service. -/
def DEFAULT_SETTINGS : AppSettings :=
  { selectedPaperSizeIndex := 0, pictureWidth := 44, pictureHeight := 44,
    margins := 4, spacing := 2, allowWhitespace := false,
    showCropMarks := true, isDarkMode := false,
    placeholderShape := .rectangular }

/-- A stored settings record as parsed from JSON: each known key is either
present with a value or missing.  (Unknown extra keys in the stored JSON
have no counterpart in the typed record and are irrelevant to the merge.) -/
structure StoredSettings where
  selectedPaperSizeIndex : Option ℤ
  pictureWidth : Option ℚ
  pictureHeight : Option ℚ
  margins : Option ℚ
  spacing : Option ℚ
  allowWhitespace : Option Bool
  showCropMarks : Option Bool
  isDarkMode : Option Bool
  placeholderShape : Option PlaceholderShape
deriving DecidableEq, Repr

/-- The spread merge `{ ...this.DEFAULT_SETTINGS, ...parsed }`: a key
present in `parsed` wins, a missing key keeps the default. -/
def mergeSettings (d : AppSettings) (p : StoredSettings) : AppSettings :=
  { selectedPaperSizeIndex := p.selectedPaperSizeIndex.getD d.selectedPaperSizeIndex,
    pictureWidth := p.pictureWidth.getD d.pictureWidth,
    pictureHeight := p.pictureHeight.getD d.pictureHeight,
    margins := p.margins.getD d.margins,
    spacing := p.spacing.getD d.spacing,
    allowWhitespace := p.allowWhitespace.getD d.allowWhitespace,
    showCropMarks := p.showCropMarks.getD d.showCropMarks,
    isDarkMode := p.isDarkMode.getD d.isDarkMode,
    placeholderShape := p.placeholderShape.getD d.placeholderShape }

/-- Shallow embedding of `StorageService.loadSettings()`:
`localStorage.getItem` returning `null` (or a parse failure) is `none`;
a stored record is merged over the defaults. -/
def loadSettings (stored : Option StoredSettings) : AppSettings :=
  match stored with
  | some parsed => mergeSettings DEFAULT_SETTINGS parsed
  | none => DEFAULT_SETTINGS

/-- The component settings fields that `saveSettings`/`restoreSettings`
read and write (plus the dark-mode signal). -/
structure ComponentSettings where
  selectedPaperSizeIndex : ℤ
  pictureWidth : ℚ
  pictureHeight : ℚ
  margins : ℚ
  spacing : ℚ
  allowWhitespace : Bool
  showCropMarks : Bool
  placeholderShape : PlaceholderShape
  isDarkMode : Bool
deriving DecidableEq, Repr

/-- Shallow embedding of `saveSettings()`: the record handed to
`storageService.saveSettings`, built from the current component state. -/
def saveSettings (s : ComponentSettings) : AppSettings :=
  { selectedPaperSizeIndex := s.selectedPaperSizeIndex,
    pictureWidth := s.pictureWidth,
    pictureHeight := s.pictureHeight,
    margins := s.margins,
    spacing := s.spacing,
    allowWhitespace := s.allowWhitespace,
    showCropMarks := s.showCropMarks,
    isDarkMode := s.isDarkMode,
    placeholderShape := s.placeholderShape }

/-- Shallow embedding of `restoreSettings()`: resets the settings fields
to their default literals (dark mode untouched), then persists via
`saveSettings`.  Returns the new in-memory state and the persisted
record.  (The grid recomputation it also triggers is `calculateGrid`,
modelled separately.) -/
def restoreSettings (s : ComponentSettings) : ComponentSettings × AppSettings :=
  let s1 : ComponentSettings :=
    { s with selectedPaperSizeIndex := 0, pictureWidth := 44, pictureHeight := 44,
             margins := 4, spacing := 2, allowWhitespace := false,
             showCropMarks := true, placeholderShape := .rectangular }
  (s1, saveSettings s1)

/-- The spec's first scenario: 10×15 cm paper, 44×44 mm pictures, 4 mm
margins, 2 mm spacing, rectangular shape (the component defaults). -/
def defaultLayoutConfig : LayoutConfig :=
  { paperSize := { width := 10, height := 15 }, pictureWidth := 44,
    pictureHeight := 44, margin := 4, spacing := 2, shape := .rectangular }

/-- The default layout with spacing −50 mm (the number inputs are not
validated, so a negative spacing reaches `calculateGrid`). -/
def negSpacingConfig : LayoutConfig := { defaultLayoutConfig with spacing := -50 }

/-- The default layout with spacing −1 mm: both fit checks pass and both
floors are ≥ 1, yet neighbouring cells overlap by 1 mm. -/
def overlapSpacingConfig : LayoutConfig := { defaultLayoutConfig with spacing := -1 }

/-- Fit settings for the zoom examples: 12.7 mm square placeholder
(48 CSS px), cover mode. -/
def coverZoomConfig : FitConfig :=
  { pictureWidth := 12.7, pictureHeight := 12.7,
    placeholderShape := .rectangular, allowWhitespace := false }

/-- The same placeholder with whitespace allowed. -/
def freeZoomConfig : FitConfig := { coverZoomConfig with allowWhitespace := true }

/-- A 100×100 px image at scale 1/2 (scaled 50 px > 48 px placeholder),
panned 1 px left and up. -/
def zoomImage : ImageState :=
  { imageData := true, offsetX := -1, offsetY := -1, scale := 1/2,
    imageWidth := 100, imageHeight := 100 }

/-- A round placeholder of diameter 12.7 mm (48 CSS px) whose stored
`pictureHeight` is 6.35 mm (24 CSS px), cover mode. -/
def roundFitConfig : FitConfig :=
  { pictureWidth := 12.7, pictureHeight := 6.35,
    placeholderShape := .round, allowWhitespace := false }

/-- A 100×100 px image at exactly the minimum cover scale 12/25 for
`roundFitConfig`, requesting offset (0, −24). -/
def roundImage : ImageState :=
  { imageData := true, offsetX := 0, offsetY := -24, scale := 12/25,
    imageWidth := 100, imageHeight := 100 }

/-- A 100×400 px image at scale 1/4: scaled width 25 px (below the 48 px
placeholder), scaled height 100 px (above it). -/
def tallImage : ImageState :=
  { imageData := true, offsetX := 7, offsetY := 7, scale := 1/4,
    imageWidth := 100, imageHeight := 400 }

/-- Simp lemmas naming the definitional unfoldings of the grid helpers. -/
lemma availableWidth_def (c : LayoutConfig) :
    availableWidth c = paperWidthMm c - 2 * c.margin := rfl

lemma availableHeight_def (c : LayoutConfig) :
    availableHeight c = paperHeightMm c - 2 * c.margin := rfl

/-- When the width fit check passes, the picture width fits the available width. -/
lemma pictureWidth_le_availableWidth (c : LayoutConfig)
    (hw : ¬ minRequiredWidth c > paperWidthMm c) :
    pictureWidthMm c ≤ availableWidth c := by
  rw [not_lt] at hw
  unfold minRequiredWidth at hw
  unfold availableWidth
  linarith

/-- When the height fit check passes, the picture height fits the available height. -/
lemma pictureHeight_le_availableHeight (c : LayoutConfig)
    (hh : ¬ minRequiredHeight c > paperHeightMm c) :
    pictureHeightMm c ≤ availableHeight c := by
  rw [not_lt] at hh
  unfold minRequiredHeight at hh
  unfold availableHeight
  linarith

/-- With a positive picture width, nonnegative spacing and a passing width
fit check, at least one column fits. -/
lemma one_le_gridColumns (c : LayoutConfig)
    (hw : ¬ minRequiredWidth c > paperWidthMm c)
    (hpw : 0 < pictureWidthMm c) (hs : 0 ≤ c.spacing) :
    1 ≤ gridColumns c := by
  have hd : 0 < pictureWidthMm c + c.spacing := by linarith
  have hq : (1 : ℚ) ≤ (availableWidth c + c.spacing) / (pictureWidthMm c + c.spacing) := by
    rw [one_le_div hd]
    have := pictureWidth_le_availableWidth c hw
    linarith
  exact Int.le_floor.mpr (by exact_mod_cast hq)

/-- With a positive effective picture height, nonnegative spacing and a
passing height fit check, at least one row fits. -/
lemma one_le_gridRows (c : LayoutConfig)
    (hh : ¬ minRequiredHeight c > paperHeightMm c)
    (hph : 0 < pictureHeightMm c) (hs : 0 ≤ c.spacing) :
    1 ≤ gridRows c := by
  have hd : 0 < pictureHeightMm c + c.spacing := by linarith
  have hq : (1 : ℚ) ≤ (availableHeight c + c.spacing) / (pictureHeightMm c + c.spacing) := by
    rw [one_le_div hd]
    have := pictureHeight_le_availableHeight c hh
    linarith
  exact Int.le_floor.mpr (by exact_mod_cast hq)

/-- On the success path, `calculateGrid` writes the computed grid. -/
lemma calculateGrid_success (c : LayoutConfig) (s : GridState)
    (hw : ¬ minRequiredWidth c > paperWidthMm c)
    (hh : ¬ minRequiredHeight c > paperHeightMm c)
    (hc : ¬ (gridColumns c ≤ 0 ∨ gridRows c ≤ 0)) :
    calculateGrid c s =
      { hasLayoutError := false, errorKind := none,
        rows := gridRows c, columns := gridColumns c,
        offsetX := gridOffsetX c, offsetY := gridOffsetY c,
        placeholders := gridPlaceholders c } := by
  unfold calculateGrid
  rw [if_neg hw, if_neg hh, if_neg hc]

/-- The floor bound: `columns` columns of pictures plus their spacing fit
the available width. -/
lemma totalGridWidth_le (c : LayoutConfig) (hd : 0 < pictureWidthMm c + c.spacing) :
    totalGridWidth c ≤ availableWidth c := by
  have hfl : (gridColumns c : ℚ) ≤
      (availableWidth c + c.spacing) / (pictureWidthMm c + c.spacing) :=
    Int.floor_le _
  have hmul : (gridColumns c : ℚ) * (pictureWidthMm c + c.spacing) ≤
      availableWidth c + c.spacing := by
    have h2 := mul_le_mul_of_nonneg_right hfl hd.le
    rwa [div_mul_cancel₀ _ hd.ne'] at h2
  unfold totalGridWidth
  ring_nf
  ring_nf at hmul
  linarith

/-- The floor bound: `rows` rows of pictures plus their spacing fit the
available height. -/
lemma totalGridHeight_le (c : LayoutConfig) (hd : 0 < pictureHeightMm c + c.spacing) :
    totalGridHeight c ≤ availableHeight c := by
  have hfl : (gridRows c : ℚ) ≤
      (availableHeight c + c.spacing) / (pictureHeightMm c + c.spacing) :=
    Int.floor_le _
  have hmul : (gridRows c : ℚ) * (pictureHeightMm c + c.spacing) ≤
      availableHeight c + c.spacing := by
    have h2 := mul_le_mul_of_nonneg_right hfl hd.le
    rwa [div_mul_cancel₀ _ hd.ne'] at h2
  unfold totalGridHeight
  ring_nf
  ring_nf at hmul
  linarith

/-- C1 (amended): for every layout whose width and height fit checks pass,
with positive picture width, positive effective picture height and
nonnegative spacing, `calculateGrid` sets
`columns = ⌊(availableWidth + spacing) / (pictureWidth + spacing)⌋` and
`rows = ⌊(availableHeight + spacing) / (effectiveHeight + spacing)⌋`,
where `availableWidth/Height = paperSize·10 − 2·margin` and the effective
height is `pictureWidth` for round placeholders, else `pictureHeight`. -/
theorem calculateGrid_floor_formula (c : LayoutConfig) (s : GridState)
    (hw : ¬ minRequiredWidth c > paperWidthMm c)
    (hh : ¬ minRequiredHeight c > paperHeightMm c)
    (hpw : 0 < c.pictureWidth)
    (hph : 0 < (if c.shape = .round then c.pictureWidth else c.pictureHeight))
    (hs : 0 ≤ c.spacing) :
    (calculateGrid c s).columns =
      ⌊(c.paperSize.width * 10 - 2 * c.margin + c.spacing) / (c.pictureWidth + c.spacing)⌋ ∧
    (calculateGrid c s).rows =
      ⌊(c.paperSize.height * 10 - 2 * c.margin + c.spacing) /
        ((if c.shape = .round then c.pictureWidth else c.pictureHeight) + c.spacing)⌋ := by
  have hcols := one_le_gridColumns c hw hpw hs
  have hrows := one_le_gridRows c hh hph hs
  rw [calculateGrid_success c s hw hh (by push_neg; constructor <;> omega)]
  exact ⟨rfl, rfl⟩

/-- C1 witness: the spec scenario (10×15 cm, 44×44 mm, 4 mm margin, 2 mm
spacing) yields 2 columns and 3 rows. -/
theorem calculateGrid_floor_formula_witness :
    (calculateGrid defaultLayoutConfig initialGridState).columns =
      ⌊(defaultLayoutConfig.paperSize.width * 10 - 2 * defaultLayoutConfig.margin +
          defaultLayoutConfig.spacing) /
        (defaultLayoutConfig.pictureWidth + defaultLayoutConfig.spacing)⌋ ∧
    (calculateGrid defaultLayoutConfig initialGridState).rows =
      ⌊(defaultLayoutConfig.paperSize.height * 10 - 2 * defaultLayoutConfig.margin +
          defaultLayoutConfig.spacing) /
        ((if defaultLayoutConfig.shape = .round then defaultLayoutConfig.pictureWidth
          else defaultLayoutConfig.pictureHeight) + defaultLayoutConfig.spacing)⌋ :=
  calculateGrid_floor_formula defaultLayoutConfig initialGridState
    (by norm_num [minRequiredWidth, paperWidthMm, pictureWidthMm, defaultLayoutConfig])
    (by norm_num [minRequiredHeight, paperHeightMm, pictureHeightMm, defaultLayoutConfig])
    (by norm_num [defaultLayoutConfig])
    (by norm_num [defaultLayoutConfig])
    (by norm_num [defaultLayoutConfig])

/-- C1 counterexample: with spacing −50 mm both fit checks pass, the
claim's floor formula gives −7 columns, but `calculateGrid` takes the
no-space branch and sets `columns = 0 ≠ −7`. -/
theorem calculateGrid_floor_formula_cex :
    ¬ minRequiredWidth negSpacingConfig > paperWidthMm negSpacingConfig
  ∧ ¬ minRequiredHeight negSpacingConfig > paperHeightMm negSpacingConfig
  ∧ ⌊(negSpacingConfig.paperSize.width * 10 - 2 * negSpacingConfig.margin +
        negSpacingConfig.spacing) /
      (negSpacingConfig.pictureWidth + negSpacingConfig.spacing)⌋ = (-7 : ℤ)
  ∧ (calculateGrid negSpacingConfig initialGridState).columns = 0 := by
  refine ⟨?_, ?_, ?_, ?_⟩ <;>
    norm_num [calculateGrid, gridColumns, gridRows, availableWidth, availableHeight,
      paperWidthMm, paperHeightMm, pictureWidthMm, pictureHeightMm, minRequiredWidth,
      minRequiredHeight, negSpacingConfig, defaultLayoutConfig, initialGridState]

/-- C3: the three failure kinds are reported as mutually exclusive error
messages, checked in the fixed order width-exceeds, height-exceeds,
no-space; the first matching condition is reported with its required and
available dimensions, and every error resets rows, columns and the cell
list. -/
theorem calculateGrid_error_cases (c : LayoutConfig) (s : GridState) :
    ((calculateGrid c s).errorKind =
        some (.widthExceeds (minRequiredWidth c) (paperWidthMm c)) ↔
      minRequiredWidth c > paperWidthMm c)
  ∧ ((calculateGrid c s).errorKind =
        some (.heightExceeds (minRequiredHeight c) (paperHeightMm c)) ↔
      ¬ minRequiredWidth c > paperWidthMm c ∧
        minRequiredHeight c > paperHeightMm c)
  ∧ ((calculateGrid c s).errorKind =
        some (.noSpace (pictureWidthMm c) (pictureHeightMm c)
                       (availableWidth c) (availableHeight c)) ↔
      ¬ minRequiredWidth c > paperWidthMm c ∧
        ¬ minRequiredHeight c > paperHeightMm c ∧
        (gridColumns c ≤ 0 ∨ gridRows c ≤ 0))
  ∧ ((calculateGrid c s).hasLayoutError = true ↔
      (calculateGrid c s).errorKind ≠ none)
  ∧ ((calculateGrid c s).hasLayoutError = true →
      (calculateGrid c s).rows = 0 ∧ (calculateGrid c s).columns = 0 ∧
        (calculateGrid c s).placeholders = []) := by
  unfold calculateGrid
  split_ifs with h1 h2 h3 <;> simp_all

/-- C3 witness: the spec's width-exceeds scenario (96 mm picture on 100 mm
paper with 4 mm margins) resets rows, columns and cells. -/
theorem calculateGrid_error_cases_witness :
    (calculateGrid { defaultLayoutConfig with pictureWidth := 96 } initialGridState).rows = 0 ∧
    (calculateGrid { defaultLayoutConfig with pictureWidth := 96 } initialGridState).columns = 0 ∧
    (calculateGrid { defaultLayoutConfig with pictureWidth := 96 } initialGridState).placeholders = [] :=
  (calculateGrid_error_cases { defaultLayoutConfig with pictureWidth := 96 }
      initialGridState).2.2.2.2
    (by norm_num [calculateGrid, minRequiredWidth, paperWidthMm, pictureWidthMm,
      defaultLayoutConfig, initialGridState])

/-- C8: whenever `calculateGrid` reports no error, at least one row and one
column were computed and the placeholder list has exactly `rows × columns`
cells. -/
theorem calculateGrid_success_invariant (c : LayoutConfig) (s : GridState)
    (h : (calculateGrid c s).hasLayoutError = false) :
    1 ≤ (calculateGrid c s).rows ∧ 1 ≤ (calculateGrid c s).columns ∧
    ((calculateGrid c s).placeholders.length : ℤ) =
      (calculateGrid c s).rows * (calculateGrid c s).columns := by
  by_cases h1 : minRequiredWidth c > paperWidthMm c
  · exact absurd h (by simp [calculateGrid, h1])
  by_cases h2 : minRequiredHeight c > paperHeightMm c
  · exact absurd h (by simp [calculateGrid, h1, h2])
  by_cases h3 : gridColumns c ≤ 0 ∨ gridRows c ≤ 0
  · exact absurd h (by simp [calculateGrid, h1, h2, h3])
  rw [calculateGrid_success c s h1 h2 h3]
  push_neg at h3
  obtain ⟨hc, hr⟩ := h3
  refine ⟨?_, ?_, ?_⟩
  · show 1 ≤ gridRows c
    omega
  · show 1 ≤ gridColumns c
    omega
  · show ((gridPlaceholders c).length : ℤ) = gridRows c * gridColumns c
    simp only [gridPlaceholders, List.length_map, List.length_range]
    rw [Int.toNat_of_nonneg (mul_nonneg (by omega) (by omega))]

/-- C8 witness: the default configuration yields a 3×2 grid of 6 cells. -/
theorem calculateGrid_success_invariant_witness :
    1 ≤ (calculateGrid defaultLayoutConfig initialGridState).rows ∧
    1 ≤ (calculateGrid defaultLayoutConfig initialGridState).columns ∧
    ((calculateGrid defaultLayoutConfig initialGridState).placeholders.length : ℤ) =
      (calculateGrid defaultLayoutConfig initialGridState).rows *
        (calculateGrid defaultLayoutConfig initialGridState).columns :=
  calculateGrid_success_invariant defaultLayoutConfig initialGridState
    (by norm_num [calculateGrid, gridColumns, gridRows, availableWidth, availableHeight,
      paperWidthMm, paperHeightMm, pictureWidthMm, pictureHeightMm, minRequiredWidth,
      minRequiredHeight, defaultLayoutConfig, initialGridState])

/-- Two grid cells at distinct indices never overlap (spacing nonnegative,
positive picture dimensions). -/
lemma gridCell_separated (c : LayoutConfig)
    (hpw : 0 < pictureWidthMm c) (hph : 0 < pictureHeightMm c) (hs : 0 ≤ c.spacing)
    (hcols : 1 ≤ gridColumns c) {i j : ℕ} (hij : i < j) :
    ¬ cellsOverlap (pictureWidthMm c) (pictureHeightMm c) (gridCell c i) (gridCell c j) := by
  intro hov
  unfold cellsOverlap at hov
  obtain ⟨h1, h2, h3, h4⟩ := hov
  set cn := (gridColumns c).toNat with hcndef
  have hcn0 : 0 < cn := by omega
  have hrle : i / cn ≤ j / cn := Nat.div_le_div_right hij.le
  rcases lt_or_eq_of_le hrle with hr | hr
  · -- the cells sit in different rows: vertically separated
    have hstep : ((i / cn : ℕ) : ℚ) + 1 ≤ ((j / cn : ℕ) : ℚ) := by exact_mod_cast hr
    have hd : (0:ℚ) ≤ pictureHeightMm c + c.spacing := by linarith
    have hmul := mul_le_mul_of_nonneg_right hstep hd
    have hexp : (((i / cn : ℕ) : ℚ) + 1) * (pictureHeightMm c + c.spacing) =
        ((i / cn : ℕ) : ℚ) * (pictureHeightMm c + c.spacing) +
          (pictureHeightMm c + c.spacing) := by ring
    rw [hexp] at hmul
    have hti : (gridCell c i).top =
        gridOffsetY c + ((i / cn : ℕ) : ℚ) * (pictureHeightMm c + c.spacing) := rfl
    have htj : (gridCell c j).top =
        gridOffsetY c + ((j / cn : ℕ) : ℚ) * (pictureHeightMm c + c.spacing) := rfl
    rw [hti, htj] at h4
    linarith
  · -- same row, so the column indices differ: horizontally separated
    have hcij : i % cn < j % cn := by
      have hi' := Nat.div_add_mod i cn
      have hj' := Nat.div_add_mod j cn
      rw [← hi', ← hj', hr] at hij
      exact lt_of_add_lt_add_left hij
    have hstep : ((i % cn : ℕ) : ℚ) + 1 ≤ ((j % cn : ℕ) : ℚ) := by exact_mod_cast hcij
    have hd : (0:ℚ) ≤ pictureWidthMm c + c.spacing := by linarith
    have hmul := mul_le_mul_of_nonneg_right hstep hd
    have hexp : (((i % cn : ℕ) : ℚ) + 1) * (pictureWidthMm c + c.spacing) =
        ((i % cn : ℕ) : ℚ) * (pictureWidthMm c + c.spacing) +
          (pictureWidthMm c + c.spacing) := by ring
    rw [hexp] at hmul
    have hli : (gridCell c i).left =
        gridOffsetX c + ((i % cn : ℕ) : ℚ) * (pictureWidthMm c + c.spacing) := rfl
    have hlj : (gridCell c j).left =
        gridOffsetX c + ((j % cn : ℕ) : ℚ) * (pictureWidthMm c + c.spacing) := rfl
    rw [hli, hlj] at h2
    linarith

/-- Every grid cell of a fitting layout lies within the margin bounds. -/
lemma gridCell_inBounds (c : LayoutConfig)
    (hw : ¬ minRequiredWidth c > paperWidthMm c)
    (hh : ¬ minRequiredHeight c > paperHeightMm c)
    (hpw : 0 < pictureWidthMm c) (hph : 0 < pictureHeightMm c) (hs : 0 ≤ c.spacing)
    {i : ℕ} (hi : i < (gridRows c * gridColumns c).toNat) :
    cellInBounds c (gridCell c i) := by
  have hcols := one_le_gridColumns c hw hpw hs
  have hrows := one_le_gridRows c hh hph hs
  set cn := (gridColumns c).toNat with hcndef
  set rn := (gridRows c).toNat with hrndef
  have hcn0 : 0 < cn := by omega
  have hrn0 : 0 < rn := by omega
  have hcq : ((cn : ℕ) : ℚ) = ((gridColumns c : ℤ) : ℚ) := by
    exact_mod_cast Int.toNat_of_nonneg (by omega : (0:ℤ) ≤ gridColumns c)
  have hrq : ((rn : ℕ) : ℚ) = ((gridRows c : ℤ) : ℚ) := by
    exact_mod_cast Int.toNat_of_nonneg (by omega : (0:ℤ) ≤ gridRows c)
  have hcol : i % cn < cn := Nat.mod_lt _ hcn0
  have hrow : i / cn < rn := by
    have hprod : ((gridRows c * gridColumns c).toNat : ℤ) = ((rn * cn : ℕ) : ℤ) := by
      rw [Int.toNat_of_nonneg (mul_nonneg (by omega) (by omega))]
      push_cast [hcndef, hrndef]
      rw [Int.toNat_of_nonneg (by omega : (0:ℤ) ≤ gridRows c),
          Int.toNat_of_nonneg (by omega : (0:ℤ) ≤ gridColumns c)]
    have hn : (gridRows c * gridColumns c).toNat = rn * cn := by exact_mod_cast hprod
    rw [hn] at hi
    exact Nat.div_lt_of_lt_mul (by rwa [Nat.mul_comm] at hi)
  -- horizontal estimates
  have hdx : (0:ℚ) < pictureWidthMm c + c.spacing := by linarith
  have hTx := totalGridWidth_le c hdx
  have hX1 : (0:ℚ) ≤ ((i % cn : ℕ) : ℚ) * (pictureWidthMm c + c.spacing) :=
    mul_nonneg (by positivity) hdx.le
  have hcolq : ((i % cn : ℕ) : ℚ) + 1 ≤ ((cn : ℕ) : ℚ) := by exact_mod_cast hcol
  have hX2 : ((i % cn : ℕ) : ℚ) * (pictureWidthMm c + c.spacing) ≤
      totalGridWidth c - pictureWidthMm c := by
    have hb : ((i % cn : ℕ) : ℚ) ≤ ((gridColumns c : ℤ) : ℚ) - 1 := by
      rw [← hcq]; linarith
    have hmul := mul_le_mul_of_nonneg_right hb hdx.le
    have hexp : (((gridColumns c : ℤ) : ℚ) - 1) * (pictureWidthMm c + c.spacing) =
        totalGridWidth c - pictureWidthMm c := by
      unfold totalGridWidth; ring
    linarith
  -- vertical estimates
  have hdy : (0:ℚ) < pictureHeightMm c + c.spacing := by linarith
  have hTy := totalGridHeight_le c hdy
  have hY1 : (0:ℚ) ≤ ((i / cn : ℕ) : ℚ) * (pictureHeightMm c + c.spacing) :=
    mul_nonneg (by positivity) hdy.le
  have hrowq : ((i / cn : ℕ) : ℚ) + 1 ≤ ((rn : ℕ) : ℚ) := by exact_mod_cast hrow
  have hY2 : ((i / cn : ℕ) : ℚ) * (pictureHeightMm c + c.spacing) ≤
      totalGridHeight c - pictureHeightMm c := by
    have hb : ((i / cn : ℕ) : ℚ) ≤ ((gridRows c : ℤ) : ℚ) - 1 := by
      rw [← hrq]; linarith
    have hmul := mul_le_mul_of_nonneg_right hb hdy.le
    have hexp : (((gridRows c : ℤ) : ℚ) - 1) * (pictureHeightMm c + c.spacing) =
        totalGridHeight c - pictureHeightMm c := by
      unfold totalGridHeight; ring
    linarith
  have hoffx : gridOffsetX c = c.margin + (availableWidth c - totalGridWidth c) / 2 := rfl
  have hoffy : gridOffsetY c = c.margin + (availableHeight c - totalGridHeight c) / 2 := rfl
  have hAx := availableWidth_def c
  have hAy := availableHeight_def c
  unfold cellInBounds
  refine ⟨?_, ?_, ?_, ?_⟩
  · show c.margin ≤ gridOffsetX c + ((i % cn : ℕ) : ℚ) * (pictureWidthMm c + c.spacing)
    linarith
  · show gridOffsetX c + ((i % cn : ℕ) : ℚ) * (pictureWidthMm c + c.spacing) +
        pictureWidthMm c ≤ paperWidthMm c - c.margin
    linarith
  · show c.margin ≤ gridOffsetY c + ((i / cn : ℕ) : ℚ) * (pictureHeightMm c + c.spacing)
    linarith
  · show gridOffsetY c + ((i / cn : ℕ) : ℚ) * (pictureHeightMm c + c.spacing) +
        pictureHeightMm c ≤ paperHeightMm c - c.margin
    linarith

/-- C2 (amended): for every layout where picture plus margins fits the
paper, both floor divisions yield at least 1, the picture dimensions are
positive and the spacing is nonnegative, `calculateGrid` emits
`rows × columns` cells in row-major order at
`left = offsetX + column·(pictureWidth+spacing)`,
`top = offsetY + row·(effectiveHeight+spacing)`; no two cells overlap and
every cell lies within `[margin, paperSize − margin]` on both axes
(exactly — the model uses exact rational arithmetic). -/
theorem calculateGrid_layout_sound (c : LayoutConfig) (s : GridState)
    (hw : ¬ minRequiredWidth c > paperWidthMm c)
    (hh : ¬ minRequiredHeight c > paperHeightMm c)
    (hcols : 1 ≤ gridColumns c) (hrows : 1 ≤ gridRows c)
    (hpw : 0 < pictureWidthMm c) (hph : 0 < pictureHeightMm c)
    (hs : 0 ≤ c.spacing) :
    (calculateGrid c s).placeholders =
      (List.range ((gridRows c * gridColumns c).toNat)).map (gridCell c)
  ∧ ((calculateGrid c s).placeholders.length : ℤ) = gridRows c * gridColumns c
  ∧ (∀ cell ∈ (calculateGrid c s).placeholders,
      cell.left = gridOffsetX c + cell.column * (pictureWidthMm c + c.spacing) ∧
      cell.top = gridOffsetY c + cell.row * (pictureHeightMm c + c.spacing))
  ∧ (calculateGrid c s).placeholders.Pairwise
      (fun a b => ¬ cellsOverlap (pictureWidthMm c) (pictureHeightMm c) a b)
  ∧ (∀ cell ∈ (calculateGrid c s).placeholders, cellInBounds c cell) := by
  rw [calculateGrid_success c s hw hh (by push_neg; omega)]
  refine ⟨rfl, ?_, ?_, ?_, ?_⟩
  · show ((gridPlaceholders c).length : ℤ) = gridRows c * gridColumns c
    simp only [gridPlaceholders, List.length_map, List.length_range]
    rw [Int.toNat_of_nonneg (mul_nonneg (by omega) (by omega))]
  · show ∀ cell ∈ gridPlaceholders c, _
    intro cell hcell
    obtain ⟨i, _, rfl⟩ := List.mem_map.mp hcell
    exact ⟨rfl, rfl⟩
  · show (gridPlaceholders c).Pairwise _
    unfold gridPlaceholders
    rw [List.pairwise_map]
    exact (List.pairwise_lt_range _).imp
      (fun hab => gridCell_separated c hpw hph hs hcols hab)
  · show ∀ cell ∈ gridPlaceholders c, _
    intro cell hcell
    obtain ⟨i, hi, rfl⟩ := List.mem_map.mp hcell
    exact gridCell_inBounds c hw hh hpw hph hs (List.mem_range.mp hi)

/-- C2 witness: the default layout produces its 6 cells, pairwise
non-overlapping and within bounds. -/
theorem calculateGrid_layout_sound_witness :
    (calculateGrid defaultLayoutConfig initialGridState).placeholders =
      (List.range ((gridRows defaultLayoutConfig * gridColumns defaultLayoutConfig).toNat)).map
        (gridCell defaultLayoutConfig)
  ∧ ((calculateGrid defaultLayoutConfig initialGridState).placeholders.length : ℤ) =
      gridRows defaultLayoutConfig * gridColumns defaultLayoutConfig
  ∧ (∀ cell ∈ (calculateGrid defaultLayoutConfig initialGridState).placeholders,
      cell.left = gridOffsetX defaultLayoutConfig +
        cell.column * (pictureWidthMm defaultLayoutConfig + defaultLayoutConfig.spacing) ∧
      cell.top = gridOffsetY defaultLayoutConfig +
        cell.row * (pictureHeightMm defaultLayoutConfig + defaultLayoutConfig.spacing))
  ∧ (calculateGrid defaultLayoutConfig initialGridState).placeholders.Pairwise
      (fun a b => ¬ cellsOverlap (pictureWidthMm defaultLayoutConfig)
        (pictureHeightMm defaultLayoutConfig) a b)
  ∧ (∀ cell ∈ (calculateGrid defaultLayoutConfig initialGridState).placeholders,
      cellInBounds defaultLayoutConfig cell) :=
  calculateGrid_layout_sound defaultLayoutConfig initialGridState
    (by norm_num [minRequiredWidth, paperWidthMm, pictureWidthMm, defaultLayoutConfig])
    (by norm_num [minRequiredHeight, paperHeightMm, pictureHeightMm, defaultLayoutConfig])
    (by norm_num [gridColumns, availableWidth, paperWidthMm, pictureWidthMm, defaultLayoutConfig])
    (by norm_num [gridRows, availableHeight, paperHeightMm, pictureHeightMm, defaultLayoutConfig])
    (by norm_num [pictureWidthMm, defaultLayoutConfig])
    (by norm_num [pictureHeightMm, defaultLayoutConfig])
    (by norm_num [defaultLayoutConfig])

/-- C2 counterexample: with spacing −1 mm the claim's own hypotheses hold
(fit checks pass, both floors are ≥ 1 — columns 2, rows 3), yet the first
two emitted cells overlap by 1 mm horizontally. -/
theorem calculateGrid_overlap_cex :
    ¬ minRequiredWidth overlapSpacingConfig > paperWidthMm overlapSpacingConfig
  ∧ ¬ minRequiredHeight overlapSpacingConfig > paperHeightMm overlapSpacingConfig
  ∧ 1 ≤ gridColumns overlapSpacingConfig ∧ 1 ≤ gridRows overlapSpacingConfig
  ∧ gridCell overlapSpacingConfig 0 ∈
      (calculateGrid overlapSpacingConfig initialGridState).placeholders
  ∧ gridCell overlapSpacingConfig 1 ∈
      (calculateGrid overlapSpacingConfig initialGridState).placeholders
  ∧ gridCell overlapSpacingConfig 0 ≠ gridCell overlapSpacingConfig 1
  ∧ cellsOverlap (pictureWidthMm overlapSpacingConfig) (pictureHeightMm overlapSpacingConfig)
      (gridCell overlapSpacingConfig 0) (gridCell overlapSpacingConfig 1) := by
  have hw : ¬ minRequiredWidth overlapSpacingConfig > paperWidthMm overlapSpacingConfig := by
    norm_num [minRequiredWidth, paperWidthMm, pictureWidthMm, overlapSpacingConfig,
      defaultLayoutConfig]
  have hh : ¬ minRequiredHeight overlapSpacingConfig > paperHeightMm overlapSpacingConfig := by
    norm_num [minRequiredHeight, paperHeightMm, pictureHeightMm, overlapSpacingConfig,
      defaultLayoutConfig]
  have hcols : gridColumns overlapSpacingConfig = 2 := by
    norm_num [gridColumns, availableWidth, paperWidthMm, pictureWidthMm, overlapSpacingConfig,
      defaultLayoutConfig]
  have hrows : gridRows overlapSpacingConfig = 3 := by
    norm_num [gridRows, availableHeight, paperHeightMm, pictureHeightMm, overlapSpacingConfig,
      defaultLayoutConfig]
  have hsucc := calculateGrid_success overlapSpacingConfig initialGridState hw hh
    (by rw [hcols, hrows]; norm_num)
  refine ⟨hw, hh, by omega, by omega, ?_, ?_, ?_, ?_⟩
  · rw [hsucc]
    show gridCell overlapSpacingConfig 0 ∈ gridPlaceholders overlapSpacingConfig
    exact List.mem_map_of_mem _ (List.mem_range.mpr (by rw [hrows, hcols]; decide))
  · rw [hsucc]
    show gridCell overlapSpacingConfig 1 ∈ gridPlaceholders overlapSpacingConfig
    exact List.mem_map_of_mem _ (List.mem_range.mpr (by rw [hrows, hcols]; decide))
  · intro hEq
    have hid := congrArg CellPosition.id hEq
    simp [gridCell] at hid
  · simp only [cellsOverlap, gridCell, gridOffsetX, gridOffsetY, totalGridWidth,
      totalGridHeight, gridColumns, gridRows, availableWidth, availableHeight,
      paperWidthMm, paperHeightMm, pictureWidthMm, pictureHeightMm,
      overlapSpacingConfig, defaultLayoutConfig]
    norm_num
    simp
    norm_num

/-- C4 (amended): in a wheel-zoom step with whitespace allowed (so neither
the minimum-scale floor nor the offset clamp applies) and a nonzero
starting scale, the image-space point under the cursor is preserved
exactly; with whitespace disallowed the subsequent clamp may shift it. -/
theorem onWheel_preserves_anchor (cfg : FitConfig) (p : ImageState)
    (mouseX mouseY deltaY : ℚ)
    (him : p.imageData = true) (hws : cfg.allowWhitespace = true)
    (hsc : p.scale ≠ 0) :
    (mouseX - (onWheel cfg p mouseX mouseY deltaY).offsetX) /
        (onWheel cfg p mouseX mouseY deltaY).scale =
      (mouseX - p.offsetX) / p.scale
  ∧ (mouseY - (onWheel cfg p mouseX mouseY deltaY).offsetY) /
        (onWheel cfg p mouseX mouseY deltaY).scale =
      (mouseY - p.offsetY) / p.scale := by
  have hf : (if deltaY < 0 then (1.1 : ℚ) else 1 / 1.1) ≠ 0 := by
    split <;> norm_num
  simp only [onWheel, him, hws, Bool.true_eq_false, if_false, if_true]
  constructor <;> field_simp <;> ring_nf

/-- C4 witness: a concrete whitespace-allowed zoom step keeps the cursor
point at image coordinate 22 on both axes. -/
theorem onWheel_preserves_anchor_witness :
    ((10 : ℚ) - (onWheel freeZoomConfig zoomImage 10 10 1).offsetX) /
        (onWheel freeZoomConfig zoomImage 10 10 1).scale =
      ((10 : ℚ) - zoomImage.offsetX) / zoomImage.scale
  ∧ ((10 : ℚ) - (onWheel freeZoomConfig zoomImage 10 10 1).offsetY) /
        (onWheel freeZoomConfig zoomImage 10 10 1).scale =
      ((10 : ℚ) - zoomImage.offsetY) / zoomImage.scale :=
  onWheel_preserves_anchor freeZoomConfig zoomImage 10 10 1 rfl rfl
    (by norm_num [zoomImage])

/-- C4 counterexample: in cover mode (whitespace disallowed) the same
zoom-out step floors the scale at the minimum cover scale and then clamps
the offset, so the recomputed image-space cursor point (125/6) differs
from the pre-zoom one (22). -/
theorem onWheel_anchor_cex :
    ((10 : ℚ) - (onWheel coverZoomConfig zoomImage 10 10 1).offsetX) /
        (onWheel coverZoomConfig zoomImage 10 10 1).scale ≠
      ((10 : ℚ) - zoomImage.offsetX) / zoomImage.scale := by
  norm_num [onWheel, constrainOffset, calculateMinimumScale, placeholderWidthPx,
    placeholderHeightPx, effectivePlaceholderHeightPx, mmToCssPx, coverZoomConfig,
    zoomImage]

/-- C5 (code bug): for a round placeholder with `pictureHeight` smaller
than the diameter, `constrainOffset` clamps the y axis against the stored
`pictureHeight` instead of the rendered diameter, so even at the minimum
cover scale an in-range offset leaves a visible gap below the image. -/
theorem constrainOffset_round_gap :
    roundFitConfig.allowWhitespace = false
  ∧ calculateMinimumScale roundFitConfig roundImage ≤ roundImage.scale
  ∧ constrainOffset roundFitConfig roundImage.offsetY roundImage .y = roundImage.offsetY
  ∧ ¬ coversPlaceholder roundFitConfig
      { roundImage with
        offsetX := constrainOffset roundFitConfig roundImage.offsetX roundImage .x,
        offsetY := constrainOffset roundFitConfig roundImage.offsetY roundImage .y } := by
  refine ⟨rfl, ?_, ?_, ?_⟩ <;>
    norm_num [coversPlaceholder, constrainOffset, calculateMinimumScale,
      placeholderWidthPx, placeholderHeightPx, effectivePlaceholderHeightPx,
      mmToCssPx, roundFitConfig, roundImage]

/-- C6: on each axis, `constrainOffset` returns the centred offset
`(placeholderSize − scaledSize)/2` whenever the scaled image is at most
the placeholder size (the requested offset is ignored), and otherwise a
value in `[placeholderSize − scaledSize, 0]`. -/
theorem constrainOffset_centers_or_clamps (cfg : FitConfig) (offset : ℚ)
    (p : ImageState) :
    (p.imageWidth * p.scale ≤ placeholderWidthPx cfg →
      constrainOffset cfg offset p .x =
        (placeholderWidthPx cfg - p.imageWidth * p.scale) / 2)
  ∧ (placeholderWidthPx cfg < p.imageWidth * p.scale →
      placeholderWidthPx cfg - p.imageWidth * p.scale ≤ constrainOffset cfg offset p .x ∧
      constrainOffset cfg offset p .x ≤ 0)
  ∧ (p.imageHeight * p.scale ≤ placeholderHeightPx cfg →
      constrainOffset cfg offset p .y =
        (placeholderHeightPx cfg - p.imageHeight * p.scale) / 2)
  ∧ (placeholderHeightPx cfg < p.imageHeight * p.scale →
      placeholderHeightPx cfg - p.imageHeight * p.scale ≤ constrainOffset cfg offset p .y ∧
      constrainOffset cfg offset p .y ≤ 0) := by
  refine ⟨?_, ?_, ?_, ?_⟩
  · intro hle
    simp only [constrainOffset]
    rw [if_pos hle]
  · intro hlt
    simp only [constrainOffset]
    rw [if_neg (not_le.mpr hlt)]
    exact ⟨le_max_left _ _, max_le (by linarith) (min_le_left _ _)⟩
  · intro hle
    simp only [constrainOffset]
    rw [if_pos hle]
  · intro hlt
    simp only [constrainOffset]
    rw [if_neg (not_le.mpr hlt)]
    exact ⟨le_max_left _ _, max_le (by linarith) (min_le_left _ _)⟩

/-- C6 witness: a 100×400 image at scale 1/4 in a 48×48 px placeholder is
centred on x (scaled 25 ≤ 48) and clamped into [−52, 0] on y
(scaled 100 > 48). -/
theorem constrainOffset_centers_or_clamps_witness :
    constrainOffset coverZoomConfig 7 tallImage .x =
      (placeholderWidthPx coverZoomConfig - tallImage.imageWidth * tallImage.scale) / 2
  ∧ (placeholderHeightPx coverZoomConfig - tallImage.imageHeight * tallImage.scale ≤
      constrainOffset coverZoomConfig 7 tallImage .y ∧
     constrainOffset coverZoomConfig 7 tallImage .y ≤ 0) :=
  ⟨(constrainOffset_centers_or_clamps coverZoomConfig 7 tallImage).1
      (by norm_num [placeholderWidthPx, mmToCssPx, coverZoomConfig, tallImage]),
   (constrainOffset_centers_or_clamps coverZoomConfig 7 tallImage).2.2.2
      (by norm_num [placeholderHeightPx, mmToCssPx, coverZoomConfig, tallImage])⟩

/-- C7: every wheel-zoom step multiplies the scale by 1.1 when the wheel
delta is negative and by 1/1.1 otherwise; with whitespace disallowed the
result is floored at the minimum cover scale
`max(placeholderW/imageW, placeholderH/imageH)`, so the post-zoom scale
never falls below it in cover mode. -/
theorem onWheel_scale_law (cfg : FitConfig) (p : ImageState)
    (mouseX mouseY deltaY : ℚ) (him : p.imageData = true) :
    (onWheel cfg p mouseX mouseY deltaY).scale =
      (if cfg.allowWhitespace then
        p.scale * (if deltaY < 0 then (1.1 : ℚ) else 1 / 1.1)
       else
        max (calculateMinimumScale cfg p)
          (p.scale * (if deltaY < 0 then (1.1 : ℚ) else 1 / 1.1)))
  ∧ calculateMinimumScale cfg p =
      max (placeholderWidthPx cfg / p.imageWidth)
        (effectivePlaceholderHeightPx cfg / p.imageHeight)
  ∧ (cfg.allowWhitespace = false →
      calculateMinimumScale cfg p ≤ (onWheel cfg p mouseX mouseY deltaY).scale) := by
  refine ⟨?_, rfl, ?_⟩
  · simp only [onWheel, him, Bool.true_eq_false, if_false]
  · intro hws
    simp only [onWheel, him, hws, Bool.true_eq_false, if_false]
    exact le_max_left _ _

/-- C7 witness: a concrete cover-mode zoom-out step lands exactly on the
minimum cover scale 12/25. -/
theorem onWheel_scale_law_witness :
    (onWheel coverZoomConfig zoomImage 10 10 1).scale =
      (if coverZoomConfig.allowWhitespace then
        zoomImage.scale * (if (1 : ℚ) < 0 then (1.1 : ℚ) else 1 / 1.1)
       else
        max (calculateMinimumScale coverZoomConfig zoomImage)
          (zoomImage.scale * (if (1 : ℚ) < 0 then (1.1 : ℚ) else 1 / 1.1)))
  ∧ calculateMinimumScale coverZoomConfig zoomImage =
      max (placeholderWidthPx coverZoomConfig / zoomImage.imageWidth)
        (effectivePlaceholderHeightPx coverZoomConfig / zoomImage.imageHeight)
  ∧ (coverZoomConfig.allowWhitespace = false →
      calculateMinimumScale coverZoomConfig zoomImage ≤
        (onWheel coverZoomConfig zoomImage 10 10 1).scale) :=
  onWheel_scale_law coverZoomConfig zoomImage 10 10 1 rfl

/-- C9: loading the persisted record merges it over the defaults
field-by-field — every key present in the stored record takes its stored
value, every missing key falls back to its default, and with nothing
stored exactly the defaults are returned. -/
theorem loadSettings_merges_over_defaults (p : StoredSettings) :
    (loadSettings (some p)).selectedPaperSizeIndex =
      p.selectedPaperSizeIndex.getD DEFAULT_SETTINGS.selectedPaperSizeIndex
  ∧ (loadSettings (some p)).pictureWidth =
      p.pictureWidth.getD DEFAULT_SETTINGS.pictureWidth
  ∧ (loadSettings (some p)).pictureHeight =
      p.pictureHeight.getD DEFAULT_SETTINGS.pictureHeight
  ∧ (loadSettings (some p)).margins = p.margins.getD DEFAULT_SETTINGS.margins
  ∧ (loadSettings (some p)).spacing = p.spacing.getD DEFAULT_SETTINGS.spacing
  ∧ (loadSettings (some p)).allowWhitespace =
      p.allowWhitespace.getD DEFAULT_SETTINGS.allowWhitespace
  ∧ (loadSettings (some p)).showCropMarks =
      p.showCropMarks.getD DEFAULT_SETTINGS.showCropMarks
  ∧ (loadSettings (some p)).isDarkMode = p.isDarkMode.getD DEFAULT_SETTINGS.isDarkMode
  ∧ (loadSettings (some p)).placeholderShape =
      p.placeholderShape.getD DEFAULT_SETTINGS.placeholderShape
  ∧ loadSettings none = DEFAULT_SETTINGS :=
  ⟨rfl, rfl, rfl, rfl, rfl, rfl, rfl, rfl, rfl, rfl⟩

/-- C10: `restoreSettings` resets paper size selection, picture width and
height, margins, spacing, whitespace, crop marks and shape to their
defaults while leaving the dark-mode preference unchanged, both in the
in-memory state and in the record it persists. -/
theorem restoreSettings_resets_but_keeps_darkMode (s : ComponentSettings) :
    (restoreSettings s).1.selectedPaperSizeIndex = DEFAULT_SETTINGS.selectedPaperSizeIndex
  ∧ (restoreSettings s).1.pictureWidth = DEFAULT_SETTINGS.pictureWidth
  ∧ (restoreSettings s).1.pictureHeight = DEFAULT_SETTINGS.pictureHeight
  ∧ (restoreSettings s).1.margins = DEFAULT_SETTINGS.margins
  ∧ (restoreSettings s).1.spacing = DEFAULT_SETTINGS.spacing
  ∧ (restoreSettings s).1.allowWhitespace = DEFAULT_SETTINGS.allowWhitespace
  ∧ (restoreSettings s).1.showCropMarks = DEFAULT_SETTINGS.showCropMarks
  ∧ (restoreSettings s).1.placeholderShape = DEFAULT_SETTINGS.placeholderShape
  ∧ (restoreSettings s).1.isDarkMode = s.isDarkMode
  ∧ (restoreSettings s).2 = { DEFAULT_SETTINGS with isDarkMode := s.isDarkMode } :=
  ⟨rfl, rfl, rfl, rfl, rfl, rfl, rfl, rfl, rfl, rfl⟩

end CoverPrinter
